import Mathlib

/-!
Verification of the `stripe_server` payment-to-license fulfillment pipeline.

The Python modules (`license_generator.py`, `database.py`, `invoice_generator.py`,
`email_sender.py`, `app.py`) are shallowly embedded below:

* Python strings are `List Char`; `str.strip` / `str.upper` / `str.lower` are
  modelled for the ASCII range (the inputs the system handles are ASCII
  identifiers, hex keys and whitespace).
* `hashlib.sha256` is embedded as an executable SHA-256 (FIPS 180-4) over
  `Nat` byte lists, with 32-bit words represented as `Nat` reduced `% 2^32`.
* Python `float` money arithmetic is idealised as `ℚ`; Python's `round(x, 2)`
  (round-half-to-even) is `pyRound2`.
* Module-level configuration read from environment variables (`SECRET_KEY`,
  `IVA_PERCENT`, `BREVO_API_KEY`, database reachability) is passed explicitly
  as parameters; fallible external effects (PostgreSQL, the Brevo HTTP call,
  PDF rendering) are modelled by explicit outcome flags in a world record.
-/

/-! ## Python string primitives -/

/-- Python `str.strip()` whitespace test, restricted to the six ASCII
whitespace characters Python strips (`' '`, `\t`, `\n`, `\r`, `\x0b`, `\x0c`). -/
def pyIsSpace (c : Char) : Bool :=
  c = ' ' || c = '\t' || c = '\n' || c = '\r' || c = '\x0b' || c = '\x0c'

/-- Left part of Python `str.strip()`: drop leading whitespace. -/
def lstrip (l : List Char) : List Char := l.dropWhile pyIsSpace

/-- Right part of Python `str.strip()`: drop trailing whitespace. -/
def rstrip (l : List Char) : List Char := (l.reverse.dropWhile pyIsSpace).reverse

/-- Python `str.strip()`: drop whitespace at both ends. -/
def pyStrip (l : List Char) : List Char := lstrip (rstrip l)

/-- Python `str.upper()` (ASCII model, matching `Char.toUpper`). -/
def pyUpper (l : List Char) : List Char := l.map Char.toUpper

/-- Python `str.lower()` (ASCII model, matching `Char.toLower`). -/
def pyLower (l : List Char) : List Char := l.map Char.toLower

/-- Python `str.encode()` for one character: UTF-8 bytes of its code point. -/
def utf8Char (c : Char) : List Nat :=
  let n := c.toNat
  if n < 128 then [n]
  else if n < 2048 then [192 + n / 64, 128 + n % 64]
  else if n < 65536 then [224 + n / 4096, 128 + n / 64 % 64, 128 + n % 64]
  else [240 + n / 262144, 128 + n / 4096 % 64, 128 + n / 64 % 64, 128 + n % 64]

/-- Python `str.encode()`: UTF-8 bytes of a string. -/
def utf8Encode (l : List Char) : List Nat := (l.map utf8Char).flatten

/-! ## SHA-256 (hashlib.sha256), FIPS 180-4, over `Nat` bytes -/

/-- Addition modulo `2^32`. -/
def add32 (a b : Nat) : Nat := (a + b) % 4294967296

/-- Right rotation of a 32-bit word. -/
def rotr32 (k a : Nat) : Nat := ((a >>> k) ||| (a <<< (32 - k))) % 4294967296

/-- The 64 SHA-256 round constants. -/
def sha256K : List Nat :=
  [1116352408, 1899447441, 3049323471, 3921009573,
   961987163, 1508970993, 2453635748, 2870763221,
   3624381080, 310598401, 607225278, 1426881987,
   1925078388, 2162078206, 2614888103, 3248222580,
   3835390401, 4022224774, 264347078, 604807628,
   770255983, 1249150122, 1555081692, 1996064986,
   2554220882, 2821834349, 2952996808, 3210313671,
   3336571891, 3584528711, 113926993, 338241895,
   666307205, 773529912, 1294757372, 1396182291,
   1695183700, 1986661051, 2177026350, 2456956037,
   2730485921, 2820302411, 3259730800, 3345764771,
   3516065817, 3600352804, 4094571909, 275423344,
   430227734, 506948616, 659060556, 883997877,
   958139571, 1322822218, 1537002063, 1747873779,
   1955562222, 2024104815, 2227730452, 2361852424,
   2428436474, 2756734187, 3204031479, 3329325298]

/-- The eight 32-bit SHA-256 hash words. -/
structure Hash8 where
  h0 : Nat
  h1 : Nat
  h2 : Nat
  h3 : Nat
  h4 : Nat
  h5 : Nat
  h6 : Nat
  h7 : Nat

/-- SHA-256 initial hash value. -/
def sha256Init : Hash8 where
  h0 := 1779033703
  h1 := 3144134277
  h2 := 1013904242
  h3 := 2773480762
  h4 := 1359893119
  h5 := 2600822924
  h6 := 528734635
  h7 := 1541459225

/-- SHA-256 message-schedule function σ₀. -/
def smallSigma0 (x : Nat) : Nat := (rotr32 7 x) ^^^ (rotr32 18 x) ^^^ (x >>> 3)

/-- SHA-256 message-schedule function σ₁. -/
def smallSigma1 (x : Nat) : Nat := (rotr32 17 x) ^^^ (rotr32 19 x) ^^^ (x >>> 10)

/-- SHA-256 compression function Σ₀. -/
def bigSigma0 (x : Nat) : Nat := (rotr32 2 x) ^^^ (rotr32 13 x) ^^^ (rotr32 22 x)

/-- SHA-256 compression function Σ₁. -/
def bigSigma1 (x : Nat) : Nat := (rotr32 6 x) ^^^ (rotr32 11 x) ^^^ (rotr32 25 x)

/-- SHA-256 choose function `Ch(x,y,z)`. -/
def chooseFn (x y z : Nat) : Nat := (x &&& y) ^^^ ((x ^^^ 4294967295) &&& z)

/-- SHA-256 majority function `Maj(x,y,z)`. -/
def majFn (x y z : Nat) : Nat := (x &&& y) ^^^ (x &&& z) ^^^ (y &&& z)

/-- Big-endian 32-bit word at index `i` of a 64-byte block. -/
def word32At (block : List Nat) (i : Nat) : Nat :=
  block.getD (4 * i) 0 * 16777216 + block.getD (4 * i + 1) 0 * 65536 +
    block.getD (4 * i + 2) 0 * 256 + block.getD (4 * i + 3) 0

/-- Iterate a function `n` times (structural recursion, kernel-reducible). -/
def iterApply {α : Type} : Nat → (α → α) → α → α
  | 0, _, a => a
  | n + 1, f, a => iterApply n f (f a)

/-- Append the next message-schedule word `W_t` to a partial schedule. -/
def scheduleStep (w : List Nat) : List Nat :=
  w ++ [add32 (add32 (smallSigma1 (w.getD (w.length - 2) 0)) (w.getD (w.length - 7) 0))
        (add32 (smallSigma0 (w.getD (w.length - 15) 0)) (w.getD (w.length - 16) 0))]

/-- The 64-word SHA-256 message schedule of one 64-byte block. -/
def messageSchedule (block : List Nat) : List Nat :=
  iterApply 48 scheduleStep ((List.range 16).map (word32At block))

/-- One SHA-256 round on the working variables `a..h`. -/
def roundFn (st : Hash8) (kw : Nat × Nat) : Hash8 :=
  let t1 := add32 st.h7 (add32 (bigSigma1 st.h4) (add32 (chooseFn st.h4 st.h5 st.h6) (add32 kw.1 kw.2)))
  let t2 := add32 (bigSigma0 st.h0) (majFn st.h0 st.h1 st.h2)
  ⟨add32 t1 t2, st.h0, st.h1, st.h2, add32 st.h3 t1, st.h4, st.h5, st.h6⟩

/-- SHA-256 compression of one 64-byte block into the running hash. -/
def compressBlock (st : Hash8) (block : List Nat) : Hash8 :=
  let f := (sha256K.zip (messageSchedule block)).foldl roundFn st
  ⟨add32 st.h0 f.h0, add32 st.h1 f.h1, add32 st.h2 f.h2, add32 st.h3 f.h3,
   add32 st.h4 f.h4, add32 st.h5 f.h5, add32 st.h6 f.h6, add32 st.h7 f.h7⟩

/-- Big-endian 8-byte encoding of the 64-bit message bit length. -/
def be64 (n : Nat) : List Nat :=
  [n >>> 56 % 256, n >>> 48 % 256, n >>> 40 % 256, n >>> 32 % 256,
   n >>> 24 % 256, n >>> 16 % 256, n >>> 8 % 256, n % 256]

/-- SHA-256 padding: `0x80`, zeros to 56 mod 64, then the bit length. -/
def padMessage (msg : List Nat) : List Nat :=
  msg ++ 128 :: (List.replicate ((119 - msg.length % 64) % 64) 0 ++ be64 (msg.length * 8))

/-- Split into 64-byte blocks, with explicit fuel to stay kernel-reducible. -/
def toBlocksFuel : Nat → List Nat → List (List Nat)
  | 0, _ => []
  | _, [] => []
  | fuel + 1, l => l.take 64 :: toBlocksFuel fuel (l.drop 64)

/-- Split a byte list into 64-byte blocks. -/
def toBlocks (l : List Nat) : List (List Nat) := toBlocksFuel l.length l

/-- SHA-256 of a byte message, as the eight final hash words. -/
def sha256Words (msg : List Nat) : Hash8 :=
  (toBlocks (padMessage msg)).foldl compressBlock sha256Init

/-- Big-endian 4-byte encoding of a 32-bit word. -/
def be32 (n : Nat) : List Nat := [n >>> 24 % 256, n >>> 16 % 256, n >>> 8 % 256, n % 256]

/-- Serialization of the eight hash words, big-endian, 32 bytes. -/
def hash8Bytes (d : Hash8) : List Nat :=
  be32 d.h0 ++ be32 d.h1 ++ be32 d.h2 ++ be32 d.h3 ++
    be32 d.h4 ++ be32 d.h5 ++ be32 d.h6 ++ be32 d.h7

/-- SHA-256 digest of a byte message: 32 bytes. -/
def sha256Bytes (msg : List Nat) : List Nat := hash8Bytes (sha256Words msg)

/-- The sixteen lowercase hexadecimal digits, as produced by `hexdigest()`. -/
def hexDigitChars : List Char := "0123456789abcdef".toList

/-- Hexadecimal digit character of a value below 16. -/
def hexDigit (n : Nat) : Char := hexDigitChars.getD n '0'

/-- Two lowercase hex characters of one byte. -/
def hexByte (b : Nat) : List Char := [hexDigit (b / 16), hexDigit (b % 16)]

/-- Python `hashlib.sha256(..).hexdigest()` tail: lowercase hex of a digest. -/
def hexdigest (bytes : List Nat) : List Char := (bytes.map hexByte).flatten

/-- `hashlib.sha256(s.encode()).hexdigest()` as one function on strings. -/
def sha256HexOfString (s : List Char) : List Char := hexdigest (sha256Bytes (utf8Encode s))

/-! ## license_generator.py

`SECRET_KEY` is module-level configuration read from the environment; it is
passed here as the explicit first argument `secretKey`.  Python's
`raise ValueError(..)` is an `Except.error`. -/

/-- Embedding of `generate_license_hash` (license_generator.py lines 18-40). -/
def generate_license_hash (secretKey hardware_id user_name : List Char) :
    Except String (List Char) :=
  if secretKey = [] then .error "LICENSE_SECRET_KEY no está configurada"
  else
    let clean_name := pyUpper (pyStrip user_name)
    let clean_hwid := pyStrip hardware_id
    let raw_data := clean_hwid ++ '|' :: (clean_name ++ '|' :: secretKey)
    .ok (pyUpper ((sha256HexOfString raw_data).take 24))

/-- Embedding of `verify_license` (license_generator.py lines 43-56); the
`ValueError` possibly raised by `generate_license_hash` propagates. -/
def verify_license (secretKey key hardware_id user_name : List Char) :
    Except String Bool :=
  (generate_license_hash secretKey hardware_id user_name).map
    (fun expected_key => pyUpper (pyStrip key) == expected_key)

/-- Modelled from the spec (§4.1 Algorithm): normalize the name by trimming
and upper-casing, trim the hardware id, join with `|`, SHA-256 over the UTF-8
bytes, keep the first 24 hex characters, upper-cased.  Used as the
specification-side formula compared against `generate_license_hash`. -/
def derive_spec (secretKey hardware_id user_name : List Char) : List Char :=
  pyUpper ((sha256HexOfString
    (pyStrip hardware_id ++ '|' :: (pyUpper (pyStrip user_name) ++ '|' :: secretKey))).take 24)

/-! ## Shape of the derived key -/

/-- The sixteen upper-case hexadecimal digits (glossary: license keys are
24-character upper-case hexadecimal strings). -/
def upperHexChars : List Char := "0123456789ABCDEF".toList

theorem hexDigit_mem (n : Nat) : hexDigit n ∈ hexDigitChars := by
  unfold hexDigit
  by_cases h : n < hexDigitChars.length
  · rw [List.getD_eq_getElem?_getD, List.getElem?_eq_getElem h]
    exact List.getElem_mem h
  · rw [List.getD_eq_getElem?_getD, List.getElem?_eq_none (Nat.le_of_not_lt h)]
    decide

theorem hexdigest_length (bytes : List Nat) : (hexdigest bytes).length = 2 * bytes.length := by
  induction bytes with
  | nil => rfl
  | cons b bs ih =>
    simp only [hexdigest, List.map_cons, List.flatten_cons, List.length_append] at *
    simp [hexByte, ih]
    omega

theorem mem_hexdigest {c : Char} {bytes : List Nat} (h : c ∈ hexdigest bytes) :
    c ∈ hexDigitChars := by
  induction bytes with
  | nil => cases h
  | cons b bs ih =>
    simp only [hexdigest, List.map_cons, List.flatten_cons, List.mem_append] at h
    rcases h with h | h
    · simp only [hexByte, List.mem_cons, List.not_mem_nil, or_false] at h
      rcases h with rfl | rfl <;> exact hexDigit_mem _
    · exact ih h

theorem hash8Bytes_length (d : Hash8) : (hash8Bytes d).length = 32 := by
  simp [hash8Bytes, be32]

theorem sha256HexOfString_length (s : List Char) : (sha256HexOfString s).length = 64 := by
  simp [sha256HexOfString, sha256Bytes, hexdigest_length, hash8Bytes_length]

theorem toUpper_hexDigit_mem : ∀ c ∈ hexDigitChars, Char.toUpper c ∈ upperHexChars := by decide

theorem derive_spec_length (secretKey hardware_id user_name : List Char) :
    (derive_spec secretKey hardware_id user_name).length = 24 := by
  simp [derive_spec, pyUpper, sha256HexOfString_length]

theorem derive_spec_mem_upperHex (secretKey hardware_id user_name : List Char) :
    ∀ c ∈ derive_spec secretKey hardware_id user_name, c ∈ upperHexChars := by
  intro c hc
  simp only [derive_spec, pyUpper, List.mem_map] at hc
  obtain ⟨c', hc', rfl⟩ := hc
  exact toUpper_hexDigit_mem c' (mem_hexdigest (List.mem_of_mem_take hc'))

set_option maxRecDepth 10000 in
/-- The SHA-256 embedding reproduces the FIPS 180-4 test vector for `"abc"`
(checked by kernel evaluation, validating the embedding of `hashlib.sha256`). -/
theorem sha256_fips_vector_abc :
    sha256HexOfString ('a' :: 'b' :: 'c' :: []) =
      "ba7816bf8f01cfea414140de5dae2223b00361a396177a9cb410ff61f20015ad".toList := by
  decide

/-- C1: for every hardware id and user name, given a non-empty configured
secret, `generate_license_hash` returns exactly the upper-cased first 24
hexadecimal characters of the SHA-256 digest of the UTF-8 bytes of
`trim(hardwareId) + "|" + upper(trim(userName)) + "|" + secret` (the
spec-side formula `derive_spec`); consequently the result is always a
24-character upper-case hexadecimal string. -/
theorem C1_generate_license_hash_formula_and_shape
    (secretKey hardware_id user_name : List Char) (hsec : secretKey ≠ []) :
    generate_license_hash secretKey hardware_id user_name =
      .ok (derive_spec secretKey hardware_id user_name) ∧
    (derive_spec secretKey hardware_id user_name).length = 24 ∧
    ∀ c ∈ derive_spec secretKey hardware_id user_name, c ∈ upperHexChars := by
  refine ⟨?_, derive_spec_length _ _ _, derive_spec_mem_upperHex _ _ _⟩
  simp [generate_license_hash, derive_spec, hsec]

/-- Witness for C1 at a concrete secret, hardware id and user name. -/
theorem C1_witness :
    (('S' :: []) : List Char) ≠ [] ∧
    (generate_license_hash ('S' :: []) ('A' :: []) ('b' :: []) =
        .ok (derive_spec ('S' :: []) ('A' :: []) ('b' :: [])) ∧
      (derive_spec ('S' :: []) ('A' :: []) ('b' :: [])).length = 24 ∧
      ∀ c ∈ derive_spec ('S' :: []) ('A' :: []) ('b' :: []), c ∈ upperHexChars) :=
  ⟨by decide,
   C1_generate_license_hash_formula_and_shape ('S' :: []) ('A' :: []) ('b' :: []) (by decide)⟩

/-- C9: with an absent or empty secret, `verify_license` does not return
`false`: the `ValueError` raised by `generate_license_hash` propagates, for
every supplied key, hardware id and user name. -/
theorem C9_verify_license_raises_on_missing_secret (key hardware_id user_name : List Char) :
    verify_license [] key hardware_id user_name =
      .error "LICENSE_SECRET_KEY no está configurada" ∧
    generate_license_hash [] hardware_id user_name =
      .error "LICENSE_SECRET_KEY no está configurada" ∧
    ∀ b : Bool, verify_license [] key hardware_id user_name ≠ .ok b := by
  refine ⟨rfl, rfl, ?_⟩
  intro b
  simp [verify_license, generate_license_hash, Except.map]

/-! ## ASCII case mapping and whitespace lemmas -/

theorem toLower_eq (c : Char) :
    Char.toLower c = if c.toNat ≥ 65 ∧ c.toNat ≤ 90 then Char.ofNat (c.toNat + 32) else c := rfl

theorem toUpper_eq (c : Char) :
    Char.toUpper c = if c.toNat ≥ 97 ∧ c.toNat ≤ 122 then Char.ofNat (c.toNat - 32) else c := rfl

theorem toUpper_toLower (c : Char) : Char.toUpper (Char.toLower c) = Char.toUpper c := by
  rw [toLower_eq]
  split_ifs with h
  · obtain ⟨h1, h2⟩ := h
    have hc := Char.ofNat_toNat c
    generalize hn : c.toNat = n at h1 h2 hc ⊢
    subst hc
    interval_cases n <;> decide
  · rfl

theorem toUpper_toUpper (c : Char) : Char.toUpper (Char.toUpper c) = Char.toUpper c := by
  rw [toUpper_eq c]
  split_ifs with h
  · obtain ⟨h1, h2⟩ := h
    have hc := Char.ofNat_toNat c
    generalize hn : c.toNat = n at h1 h2 hc ⊢
    subst hc
    interval_cases n <;> decide
  · rw [toUpper_eq]
    exact if_neg h

theorem pyIsSpace_toLower (c : Char) : pyIsSpace (Char.toLower c) = pyIsSpace c := by
  rw [toLower_eq]
  split_ifs with h
  · obtain ⟨h1, h2⟩ := h
    have hc := Char.ofNat_toNat c
    generalize hn : c.toNat = n at h1 h2 hc ⊢
    subst hc
    interval_cases n <;> decide
  · rfl

theorem pyIsSpace_toUpper (c : Char) : pyIsSpace (Char.toUpper c) = pyIsSpace c := by
  rw [toUpper_eq]
  split_ifs with h
  · obtain ⟨h1, h2⟩ := h
    have hc := Char.ofNat_toNat c
    generalize hn : c.toNat = n at h1 h2 hc ⊢
    subst hc
    interval_cases n <;> decide
  · rfl

theorem dropWhile_eq_self_of_not {p : Char → Bool} {l : List Char}
    (h : ∀ c ∈ l, p c = false) : l.dropWhile p = l := by
  cases l with
  | nil => rfl
  | cons a t => exact List.dropWhile_cons_of_neg (by simp [h a (List.mem_cons_self a t)])

theorem pyStrip_eq_self_of_not {l : List Char} (h : ∀ c ∈ l, pyIsSpace c = false) :
    pyStrip l = l := by
  unfold pyStrip rstrip lstrip
  rw [dropWhile_eq_self_of_not (fun c hc => h c (List.mem_reverse.mp hc)),
    List.reverse_reverse, dropWhile_eq_self_of_not h]

theorem lstrip_append_of_space {ws l : List Char} (h : ∀ c ∈ ws, pyIsSpace c = true) :
    lstrip (ws ++ l) = lstrip l :=
  List.dropWhile_append_of_pos (by intro a ha; simp [h a ha])

theorem rstrip_append_of_space {l ws : List Char} (h : ∀ c ∈ ws, pyIsSpace c = true) :
    rstrip (l ++ ws) = rstrip l := by
  unfold rstrip
  rw [List.reverse_append, List.dropWhile_append_of_pos]
  intro a ha
  simp [h a (List.mem_reverse.mp ha)]

theorem rstrip_cons (a : Char) (l : List Char) :
    rstrip (a :: l) = if rstrip l = [] then rstrip (a :: []) else a :: rstrip l := by
  unfold rstrip
  rw [show (a :: l).reverse = l.reverse ++ a :: [] from by simp, List.dropWhile_append]
  by_cases h : l.reverse.dropWhile pyIsSpace = []
  · simp [h]
  · have h' : (l.reverse.dropWhile pyIsSpace).isEmpty = false := by
      simpa [List.isEmpty_iff] using h
    have h'' : ¬((l.reverse.dropWhile pyIsSpace).reverse = []) := by
      simpa [List.reverse_eq_nil_iff] using h
    simp [h', h'']

theorem lstrip_rstrip_comm (l : List Char) : lstrip (rstrip l) = rstrip (lstrip l) := by
  induction l with
  | nil => rfl
  | cons a t ih =>
    by_cases hp : pyIsSpace a = true
    · have hl : lstrip (a :: t) = lstrip t := List.dropWhile_cons_of_pos (by simp [hp])
      rw [hl, rstrip_cons, ← ih]
      by_cases hz : rstrip t = []
      · have ha : rstrip (a :: []) = [] := by
          unfold rstrip
          simp [List.dropWhile, hp]
        rw [if_pos hz, ha, hz]
      · rw [if_neg hz]
        exact List.dropWhile_cons_of_pos (by simp [hp])
    · have hpf : pyIsSpace a = false := by simpa using hp
      have hl : lstrip (a :: t) = a :: t := List.dropWhile_cons_of_neg (by simp [hpf])
      rw [hl, rstrip_cons]
      by_cases hz : rstrip t = []
      · have ha : rstrip (a :: []) = a :: [] := by
          unfold rstrip
          simp [List.dropWhile, hpf]
        rw [if_pos hz, ha]
        exact List.dropWhile_cons_of_neg (by simp [hpf])
      · rw [if_neg hz]
        exact List.dropWhile_cons_of_neg (by simp [hpf])

theorem pyStrip_pad {l ws1 ws2 : List Char} (h1 : ∀ c ∈ ws1, pyIsSpace c = true)
    (h2 : ∀ c ∈ ws2, pyIsSpace c = true) :
    pyStrip (ws1 ++ l ++ ws2) = pyStrip l := by
  unfold pyStrip
  rw [rstrip_append_of_space h2, lstrip_rstrip_comm, lstrip_rstrip_comm,
    lstrip_append_of_space h1]

theorem dropWhile_map_comm {f : Char → Char} (hf : ∀ c, pyIsSpace (f c) = pyIsSpace c)
    (l : List Char) :
    (l.map f).dropWhile pyIsSpace = (l.dropWhile pyIsSpace).map f := by
  induction l with
  | nil => rfl
  | cons a t ih =>
    by_cases hp : pyIsSpace a = true
    · rw [List.map_cons, List.dropWhile_cons_of_pos (by simp [hf, hp]),
        List.dropWhile_cons_of_pos (by simp [hp])]
      exact ih
    · have hpf : pyIsSpace a = false := by simpa using hp
      rw [List.map_cons, List.dropWhile_cons_of_neg (by simp [hf, hpf]),
        List.dropWhile_cons_of_neg (by simp [hpf]), List.map_cons]

theorem pyStrip_map_comm {f : Char → Char} (hf : ∀ c, pyIsSpace (f c) = pyIsSpace c)
    (l : List Char) : pyStrip (l.map f) = (pyStrip l).map f := by
  unfold pyStrip rstrip lstrip
  rw [← List.map_reverse, dropWhile_map_comm hf, ← List.map_reverse, dropWhile_map_comm hf]

theorem pyUpper_pyLower (l : List Char) : pyUpper (pyLower l) = pyUpper l := by
  unfold pyUpper pyLower
  rw [List.map_map]
  exact List.map_congr_left (fun c _ => toUpper_toLower c)

theorem pyUpper_pyUpper (l : List Char) : pyUpper (pyUpper l) = pyUpper l := by
  unfold pyUpper
  rw [List.map_map]
  exact List.map_congr_left (fun c _ => toUpper_toUpper c)

theorem pyUpper_pyStrip_pyLower (k : List Char) :
    pyUpper (pyStrip (pyLower k)) = pyUpper (pyStrip k) := by
  rw [show pyStrip (pyLower k) = pyLower (pyStrip k) from pyStrip_map_comm pyIsSpace_toLower k]
  exact pyUpper_pyLower _

theorem pyUpper_pyStrip_pyUpper (k : List Char) :
    pyUpper (pyStrip (pyUpper k)) = pyUpper (pyStrip k) := by
  rw [show pyStrip (pyUpper k) = pyUpper (pyStrip k) from pyStrip_map_comm pyIsSpace_toUpper k]
  exact pyUpper_pyUpper _

/-! ## Claim C2 -/

theorem upperHex_not_space : ∀ c ∈ upperHexChars, pyIsSpace c = false := by decide

theorem upperHex_toUpper_self : ∀ c ∈ upperHexChars, Char.toUpper c = c := by decide

theorem generate_license_hash_eq {secretKey : List Char} (hardware_id user_name : List Char)
    (hsec : secretKey ≠ []) :
    generate_license_hash secretKey hardware_id user_name =
      .ok (derive_spec secretKey hardware_id user_name) := by
  simp [generate_license_hash, derive_spec, hsec]

theorem pyStrip_derive_spec (secretKey hardware_id user_name : List Char) :
    pyStrip (derive_spec secretKey hardware_id user_name) =
      derive_spec secretKey hardware_id user_name :=
  pyStrip_eq_self_of_not fun c hc =>
    upperHex_not_space c (derive_spec_mem_upperHex _ _ _ c hc)

theorem pyUpper_derive_spec (secretKey hardware_id user_name : List Char) :
    pyUpper (derive_spec secretKey hardware_id user_name) =
      derive_spec secretKey hardware_id user_name := by
  have := fun c hc => upperHex_toUpper_self c (derive_spec_mem_upperHex secretKey hardware_id user_name c hc)
  calc pyUpper (derive_spec secretKey hardware_id user_name)
      = List.map id (derive_spec secretKey hardware_id user_name) :=
        List.map_congr_left fun c hc => this c hc
    _ = derive_spec secretKey hardware_id user_name := List.map_id _

/-- C2: with a configured secret, verifying the freshly derived key succeeds
(round-trip law), and `verify_license` is invariant under surrounding the
supplied key with whitespace and under changing its case, because it compares
`trim(upper(key))` against the derived key. -/
theorem C2_verify_roundtrip_and_key_normalization
    (secretKey key hardware_id user_name ws1 ws2 : List Char)
    (hsec : secretKey ≠ [])
    (h1 : ∀ c ∈ ws1, pyIsSpace c = true) (h2 : ∀ c ∈ ws2, pyIsSpace c = true) :
    (generate_license_hash secretKey hardware_id user_name).bind
      (fun k => verify_license secretKey k hardware_id user_name) = .ok true ∧
    verify_license secretKey (ws1 ++ key ++ ws2) hardware_id user_name =
      verify_license secretKey key hardware_id user_name ∧
    verify_license secretKey (pyLower key) hardware_id user_name =
      verify_license secretKey key hardware_id user_name ∧
    verify_license secretKey (pyUpper key) hardware_id user_name =
      verify_license secretKey key hardware_id user_name := by
  have hgen := generate_license_hash_eq hardware_id user_name hsec
  refine ⟨?_, ?_, ?_, ?_⟩
  · rw [hgen]
    show verify_license secretKey (derive_spec secretKey hardware_id user_name)
      hardware_id user_name = .ok true
    rw [verify_license, hgen, Except.map, pyStrip_derive_spec, pyUpper_derive_spec]
    simp
  · unfold verify_license
    rw [pyStrip_pad h1 h2]
  · unfold verify_license
    rw [show pyStrip (pyLower key) = pyLower (pyStrip key) from
      pyStrip_map_comm pyIsSpace_toLower key]
    show (generate_license_hash secretKey hardware_id user_name).map
        (fun e => pyUpper (pyLower (pyStrip key)) == e) = _
    rw [pyUpper_pyLower]
  · unfold verify_license
    rw [show pyStrip (pyUpper key) = pyUpper (pyStrip key) from
      pyStrip_map_comm pyIsSpace_toUpper key]
    show (generate_license_hash secretKey hardware_id user_name).map
        (fun e => pyUpper (pyUpper (pyStrip key)) == e) = _
    rw [pyUpper_pyUpper]

/-- Witness for C2 at concrete inputs. -/
theorem C2_witness :
    (('S' :: []) : List Char) ≠ [] ∧
    (∀ c ∈ ((' ' :: []) : List Char), pyIsSpace c = true) ∧
    (∀ c ∈ (([] : List Char)), pyIsSpace c = true) ∧
    ((generate_license_hash ('S' :: []) ('A' :: []) ('b' :: [])).bind
        (fun k => verify_license ('S' :: []) k ('A' :: []) ('b' :: [])) = .ok true ∧
      verify_license ('S' :: []) ((' ' :: []) ++ ('k' :: []) ++ []) ('A' :: []) ('b' :: []) =
        verify_license ('S' :: []) ('k' :: []) ('A' :: []) ('b' :: []) ∧
      verify_license ('S' :: []) (pyLower ('k' :: [])) ('A' :: []) ('b' :: []) =
        verify_license ('S' :: []) ('k' :: []) ('A' :: []) ('b' :: []) ∧
      verify_license ('S' :: []) (pyUpper ('k' :: [])) ('A' :: []) ('b' :: []) =
        verify_license ('S' :: []) ('k' :: []) ('A' :: []) ('b' :: [])) :=
  ⟨by decide, by decide, by decide,
   C2_verify_roundtrip_and_key_normalization ('S' :: []) ('k' :: []) ('A' :: []) ('b' :: [])
     (' ' :: []) [] (by decide) (by decide) (by decide)⟩

/-! ## Claim C7: normalization invariance of the deriver -/

/-- The exact pre-hash string `raw_data` built inside `generate_license_hash`
(license_generator.py line 37). -/
def license_raw_data (secretKey hardware_id user_name : List Char) : List Char :=
  pyStrip hardware_id ++ '|' :: (pyUpper (pyStrip user_name) ++ '|' :: secretKey)

theorem derive_spec_raw (secretKey hardware_id user_name : List Char) :
    derive_spec secretKey hardware_id user_name =
      pyUpper ((sha256HexOfString (license_raw_data secretKey hardware_id user_name)).take 24) := rfl

theorem derive_spec_name_lower (s h n : List Char) :
    derive_spec s h (pyLower n) = derive_spec s h n := by
  unfold derive_spec
  rw [pyUpper_pyStrip_pyLower]

theorem derive_spec_name_upper (s h n : List Char) :
    derive_spec s h (pyUpper n) = derive_spec s h n := by
  unfold derive_spec
  rw [pyUpper_pyStrip_pyUpper]

theorem derive_spec_name_pad {ws1 ws2 : List Char} (s h n : List Char)
    (hw1 : ∀ c ∈ ws1, pyIsSpace c = true) (hw2 : ∀ c ∈ ws2, pyIsSpace c = true) :
    derive_spec s h (ws1 ++ n ++ ws2) = derive_spec s h n := by
  unfold derive_spec
  rw [pyStrip_pad hw1 hw2]

theorem derive_spec_hwid_pad {ws1 ws2 : List Char} (s h n : List Char)
    (hw1 : ∀ c ∈ ws1, pyIsSpace c = true) (hw2 : ∀ c ∈ ws2, pyIsSpace c = true) :
    derive_spec s (ws1 ++ h ++ ws2) n = derive_spec s h n := by
  unfold derive_spec
  rw [pyStrip_pad hw1 hw2]

/-- C7 (amended): with a configured secret, the derived key is invariant under
changing the case of the user name, under whitespace surrounding the user
name, and under whitespace surrounding the hardware id; changing the stripped
hardware id always changes the digest *input* (`raw_data`), though the
24-hex-character key itself can collide (see the counterexample). -/
theorem C7_derive_normalization_invariance
    (secretKey hardware_id user_name ws1 ws2 : List Char) (hsec : secretKey ≠ [])
    (h1 : ∀ c ∈ ws1, pyIsSpace c = true) (h2 : ∀ c ∈ ws2, pyIsSpace c = true) :
    generate_license_hash secretKey hardware_id (pyLower user_name) =
      generate_license_hash secretKey hardware_id user_name ∧
    generate_license_hash secretKey hardware_id (pyUpper user_name) =
      generate_license_hash secretKey hardware_id user_name ∧
    generate_license_hash secretKey hardware_id (ws1 ++ user_name ++ ws2) =
      generate_license_hash secretKey hardware_id user_name ∧
    generate_license_hash secretKey (ws1 ++ hardware_id ++ ws2) user_name =
      generate_license_hash secretKey hardware_id user_name ∧
    ∀ hardware_id2 : List Char, pyStrip hardware_id ≠ pyStrip hardware_id2 →
      license_raw_data secretKey hardware_id user_name ≠
        license_raw_data secretKey hardware_id2 user_name := by
  have hg : ∀ h' n' : List Char, generate_license_hash secretKey h' n' =
      .ok (derive_spec secretKey h' n') := fun h' n' => generate_license_hash_eq h' n' hsec
  refine ⟨?_, ?_, ?_, ?_, ?_⟩
  · rw [hg, hg, derive_spec_name_lower]
  · rw [hg, hg, derive_spec_name_upper]
  · rw [hg, hg, derive_spec_name_pad _ _ _ h1 h2]
  · rw [hg, hg, derive_spec_hwid_pad _ _ _ h1 h2]
  · intro hardware_id2 hne heq
    exact hne (List.append_cancel_right heq)

/-- Witness for C7 at concrete inputs. -/
theorem C7_witness :
    (('S' :: []) : List Char) ≠ [] ∧
    (∀ c ∈ ((' ' :: []) : List Char), pyIsSpace c = true) ∧
    (∀ c ∈ (([] : List Char)), pyIsSpace c = true) ∧
    (generate_license_hash ('S' :: []) ('A' :: []) (pyLower ('b' :: [])) =
        generate_license_hash ('S' :: []) ('A' :: []) ('b' :: []) ∧
      generate_license_hash ('S' :: []) ('A' :: []) (pyUpper ('b' :: [])) =
        generate_license_hash ('S' :: []) ('A' :: []) ('b' :: []) ∧
      generate_license_hash ('S' :: []) ('A' :: []) ((' ' :: []) ++ ('b' :: []) ++ []) =
        generate_license_hash ('S' :: []) ('A' :: []) ('b' :: []) ∧
      generate_license_hash ('S' :: []) ((' ' :: []) ++ ('A' :: []) ++ []) ('b' :: []) =
        generate_license_hash ('S' :: []) ('A' :: []) ('b' :: []) ∧
      ∀ hardware_id2 : List Char, pyStrip ('A' :: []) ≠ pyStrip hardware_id2 →
        license_raw_data ('S' :: []) ('A' :: []) ('b' :: []) ≠
          license_raw_data ('S' :: []) hardware_id2 ('b' :: [])) :=
  ⟨by decide, by decide, by decide,
   C7_derive_normalization_invariance ('S' :: []) ('A' :: []) ('b' :: []) (' ' :: []) []
     (by decide) (by decide) (by decide)⟩

/-! ### C7 counterexample: distinct hardware ids can share a key

The key keeps only 96 bits of the digest, so by pigeonhole there exist two
hardware ids, whitespace-free and differing in their (internal) characters,
that derive the same key.  This refutes the universally quantified reading of
"changing internal characters of hardwareId does change the key". -/

/-- Numeric value of an upper-case hexadecimal digit. -/
def hexValU (c : Char) : Nat := upperHexChars.indexOf c

/-- Base-16 value of an upper-hex string (little-endian positional). -/
def keyNum : List Char → Nat
  | [] => 0
  | c :: cs => hexValU c + 16 * keyNum cs

theorem hexValU_lt : ∀ c ∈ upperHexChars, hexValU c < 16 := by decide

theorem hexValU_inj :
    ∀ c1 ∈ upperHexChars, ∀ c2 ∈ upperHexChars, hexValU c1 = hexValU c2 → c1 = c2 := by decide

theorem keyNum_lt (l : List Char) (h : ∀ c ∈ l, c ∈ upperHexChars) :
    keyNum l < 16 ^ l.length := by
  induction l with
  | nil => simp [keyNum]
  | cons c cs ih =>
    have h1 := hexValU_lt c (h c (List.mem_cons_self c cs))
    have h2 := ih fun x hx => h x (List.mem_cons_of_mem c hx)
    simp only [keyNum, List.length_cons, pow_succ]
    omega

theorem keyNum_inj (l1 : List Char) :
    ∀ l2 : List Char, l1.length = l2.length → (∀ c ∈ l1, c ∈ upperHexChars) →
      (∀ c ∈ l2, c ∈ upperHexChars) → keyNum l1 = keyNum l2 → l1 = l2 := by
  induction l1 with
  | nil =>
    intro l2 hlen _ _ _
    cases l2 with
    | nil => rfl
    | cons d ds => simp at hlen
  | cons c cs ih =>
    intro l2 hlen hm1 hm2 heq
    cases l2 with
    | nil => simp at hlen
    | cons d ds =>
      simp only [keyNum] at heq
      have hc := hexValU_lt c (hm1 c (List.mem_cons_self c cs))
      have hd := hexValU_lt d (hm2 d (List.mem_cons_self d ds))
      have hv : hexValU c = hexValU d := by omega
      have ht : keyNum cs = keyNum ds := by omega
      have hcd := hexValU_inj c (hm1 c (List.mem_cons_self c cs)) d
        (hm2 d (List.mem_cons_self d ds)) hv
      have hds := ih ds (by simpa using hlen)
        (fun x hx => hm1 x (List.mem_cons_of_mem c hx))
        (fun x hx => hm2 x (List.mem_cons_of_mem d hx)) ht
      rw [hcd, hds]

theorem pyStrip_replicate_A (n : Nat) :
    pyStrip (List.replicate n 'A') = List.replicate n 'A' :=
  pyStrip_eq_self_of_not fun c hc => by
    rw [List.eq_of_mem_replicate hc]
    decide

/-- Pigeonhole: any infinite family of 24-character upper-hex strings has a
collision, because there are only `16 ^ 24` such strings. -/
theorem exists_collision_of_hex24 (f : ℕ → List Char)
    (hlen : ∀ n, (f n).length = 24)
    (hmem : ∀ n, ∀ c ∈ f n, c ∈ upperHexChars) :
    ∃ n m : ℕ, n ≠ m ∧ f n = f m := by
  have hbound : ∀ n, keyNum (f n) < 16 ^ 24 := by
    intro n
    have := keyNum_lt (f n) (hmem n)
    rwa [hlen n] at this
  obtain ⟨n, m, hnm, heq⟩ := Finite.exists_ne_map_eq_of_infinite
    (fun n : ℕ => (⟨keyNum (f n), hbound n⟩ : Fin (16 ^ 24)))
  refine ⟨n, m, hnm, ?_⟩
  have hval : keyNum (f n) = keyNum (f m) := congrArg Fin.val heq
  exact keyNum_inj (f n) (f m) (by rw [hlen n, hlen m]) (hmem n) (hmem m) hval

/-- C7 counterexample: it is false that any two distinct whitespace-free
hardware ids derive distinct keys — the 24-hex-digit key space is finite
while hardware ids are not, so two distinct ids must collide. -/
theorem C7_counterexample :
    ¬ ∀ hw1 hw2 : List Char, pyStrip hw1 = hw1 → pyStrip hw2 = hw2 → hw1 ≠ hw2 →
      derive_spec ('S' :: []) hw1 [] ≠ derive_spec ('S' :: []) hw2 [] := by
  intro hall
  obtain ⟨n, m, hnm, heq⟩ := exists_collision_of_hex24
    (fun n => derive_spec ('S' :: []) (List.replicate n 'A') [])
    (fun n => derive_spec_length _ _ _)
    (fun n => derive_spec_mem_upperHex _ _ _)
  have hne : List.replicate n 'A' ≠ List.replicate m 'A' := by
    intro h
    exact hnm (by simpa using congrArg List.length h)
  exact hall (List.replicate n 'A') (List.replicate m 'A')
    (pyStrip_replicate_A n) (pyStrip_replicate_A m) hne heq

/-! ## Money arithmetic: Python floats idealised as rationals -/

/-- Python's built-in `round` to an integer: round-half-to-even (banker's
rounding), on the exact rational model of the float value. -/
def roundHalfEven (q : ℚ) : ℤ :=
  if q - ⌊q⌋ < 1 / 2 then ⌊q⌋
  else if 1 / 2 < q - ⌊q⌋ then ⌊q⌋ + 1
  else if ⌊q⌋ % 2 = 0 then ⌊q⌋ else ⌊q⌋ + 1

/-- Python `round(x, 2)`: round to two decimal places. -/
def pyRound2 (q : ℚ) : ℚ := (roundHalfEven (q * 100) : ℚ) / 100

/-! ## invoice_generator.py

`IVA_PERCENT` is module configuration (21 by default), passed explicitly.
The PDF layout, fonts and seller identity are presentation-only and are
abstracted away: the document artifact is modelled by the figures it
displays, which is what the tax-math contract constrains. -/

/-- The invoice document artifact: reference number and the displayed
figures (base, tax, authoritative gross total). -/
structure InvoiceDoc where
  numero_factura : List Char
  base_imponible : ℚ
  iva_amount : ℚ
  total : ℚ
deriving DecidableEq

/-- Embedding of the price-breakdown core of `generate_invoice_pdf`
(invoice_generator.py lines 115-119 for `base_imponible` / `iva_amount`,
line 243 for the displayed total, which is `amount_total` itself). -/
def generate_invoice_pdf (iva_percent amount_total : ℚ) (numero_factura : List Char) :
    InvoiceDoc :=
  let base_imponible := pyRound2 (amount_total / (1 + iva_percent / 100))
  let iva_amount := pyRound2 (amount_total - base_imponible)
  { numero_factura := numero_factura
    base_imponible := base_imponible
    iva_amount := iva_amount
    total := amount_total }

theorem floor_3000000_div_121 : ⌊(3000000 / 121 : ℚ)⌋ = 24793 := by
  rw [Int.floor_eq_iff]
  constructor <;> norm_num

theorem pyRound2_base_300 : pyRound2 ((300 : ℚ) / (1 + 21 / 100)) = 24793 / 100 := by
  have harg : (300 : ℚ) / (1 + 21 / 100) * 100 = 3000000 / 121 := by norm_num
  unfold pyRound2
  rw [harg]
  unfold roundHalfEven
  rw [floor_3000000_div_121]
  norm_num

theorem floor_5207 : ⌊(5207 : ℚ)⌋ = 5207 := by
  rw [Int.floor_eq_iff]
  constructor <;> norm_num

theorem pyRound2_tax_300 : pyRound2 ((300 : ℚ) - 24793 / 100) = 5207 / 100 := by
  have harg : ((300 : ℚ) - 24793 / 100) * 100 = 5207 := by norm_num
  unfold pyRound2
  rw [harg]
  unfold roundHalfEven
  rw [floor_5207]
  norm_num

/-- C5: the synthesizer derives `base = round(gross / (1 + taxRate/100), 2)`
and `tax = round(gross - base, 2)`, displaying `gross` itself as the
authoritative total; for `gross = 300.00`, `taxRate = 21` this gives
`base = 247.93` and `tax = 52.07`. -/
theorem C5_invoice_tax_derivation (gross taxRate : ℚ) (numero : List Char) :
    (generate_invoice_pdf taxRate gross numero).base_imponible =
      pyRound2 (gross / (1 + taxRate / 100)) ∧
    (generate_invoice_pdf taxRate gross numero).iva_amount =
      pyRound2 (gross - pyRound2 (gross / (1 + taxRate / 100))) ∧
    (generate_invoice_pdf taxRate gross numero).total = gross ∧
    (generate_invoice_pdf 21 300 numero).base_imponible = 24793 / 100 ∧
    (generate_invoice_pdf 21 300 numero).iva_amount = 5207 / 100 := by
  refine ⟨rfl, rfl, rfl, ?_, ?_⟩
  · show pyRound2 ((300 : ℚ) / (1 + 21 / 100)) = 24793 / 100
    exact pyRound2_base_300
  · show pyRound2 ((300 : ℚ) - pyRound2 ((300 : ℚ) / (1 + 21 / 100))) = 5207 / 100
    rw [pyRound2_base_300]
    exact pyRound2_tax_300

/-! ## database.py: revenue aggregation

`get_total_revenue` recomputes the projection from the stored rows on every
call; here the stored rows are the list of sale amounts and the reachability
of the store is the explicit `connOk` flag (`None` connection and query
errors both yield `(0.0, 0.0, 0.0)` in the source). -/

/-- Embedding of `get_total_revenue` (database.py lines 192-220): returns
`(total_bruto, total_neto, total_comisiones)` with the Stripe Spain fee
`1.5% + 0.25 EUR` per transaction. -/
def get_total_revenue (connOk : Bool) (amounts : List ℚ) : ℚ × ℚ × ℚ :=
  if !connOk then (0, 0, 0)
  else
    let total_bruto := amounts.sum
    let num_ventas := amounts.length
    let total_comisiones := total_bruto * 0.015 + (num_ventas : ℚ) * 0.25
    (total_bruto, total_bruto - total_comisiones, total_comisiones)

/-- C6: `get_total_revenue` returns `(gross, net, fees)` with
`gross = sum of amounts`, `fees = gross * 0.015 + count * 0.25`,
`net = gross - fees`, recomputed from the rows; for two sales of 100.00 and
200.00 it returns fees 5.0 and net 295.0. -/
theorem C6_aggregate_revenue (amounts : List ℚ) :
    get_total_revenue true amounts =
      (amounts.sum,
       amounts.sum - (amounts.sum * 0.015 + (amounts.length : ℚ) * 0.25),
       amounts.sum * 0.015 + (amounts.length : ℚ) * 0.25) ∧
    get_total_revenue true (100 :: 200 :: []) = (300, 295, 5) := by
  constructor
  · rfl
  · norm_num [get_total_revenue]

/-! ## database.py: the sales table and the CSV export -/

/-- A timestamp (PostgreSQL `created_at`, `datetime.now()`). -/
structure PyDateTime where
  year : Nat
  month : Nat
  day : Nat
  hour : Nat
  minute : Nat
  second : Nat
deriving DecidableEq

/-- Decimal digit character. -/
def decDigit (n : Nat) : Char := hexDigit (n % 10)

/-- Two-digit zero-padded `strftime` field (`%d`, `%m`, `%H`, `%M`, `%S`). -/
def pad2 (n : Nat) : List Char := decDigit (n / 10) :: decDigit n :: []

/-- Four-digit `strftime` year (`%Y`, years 1000-9999). -/
def pad4 (n : Nat) : List Char :=
  decDigit (n / 1000) :: decDigit (n / 100) :: decDigit (n / 10) :: decDigit n :: []

/-- One row of the `ventas` table as read back by `get_all_sales`; the
optional text columns are already defaulted to the empty string the way the
CSV exporter reads them (`sale.get(col, '') or ''`). -/
structure Sale where
  id : Nat
  created_at : Option PyDateTime
  nombre : List Char
  email : List Char
  hw_id : List Char
  license_key : List Char
  amount : ℚ
  currency : List Char
  juzgado : List Char
  numero_juzgado : List Char
  partido_judicial : List Char
  stripe_session_id : List Char
  stripe_payment_intent : List Char
  stripe_customer_id : List Char
  pais_facturacion : List Char

/-- Python `str()` of a float holding an exact two-decimal money value
(amounts are `DECIMAL(10, 2)` and fees are `round(_, 2)`): the shortest
decimal form, e.g. `300.0`, `5.0`, `4.75`, `52.07`; modelled for the
non-negative values the ledger stores. -/
def pyFloatStr (q : ℚ) : List Char :=
  let cents := (roundHalfEven (q * 100)).toNat
  let ip := cents / 100
  let fr := cents % 100
  if fr = 0 then Nat.toDigits 10 ip ++ '.' :: '0' :: []
  else if fr % 10 = 0 then Nat.toDigits 10 ip ++ '.' :: decDigit (fr / 10) :: []
  else Nat.toDigits 10 ip ++ '.' :: decDigit (fr / 10) :: decDigit fr :: []

/-- Python `str.replace` for single characters. -/
def replaceChar (a b : Char) (l : List Char) : List Char :=
  l.map fun c => if c = a then b else c

/-- `created_at.strftime("%d/%m/%Y %H:%M")`. -/
def fmtFechaCsv (d : PyDateTime) : List Char :=
  pad2 d.day ++ '/' :: (pad2 d.month ++ '/' :: (pad4 d.year ++ ' ' :: (pad2 d.hour ++ ':' :: pad2 d.minute)))

/-- Does `csv.writer` with `QUOTE_MINIMAL` have to quote this field? -/
def csvNeedsQuote (f : List Char) : Bool :=
  f.any fun c => c = ';' || c = '"' || c = '\r' || c = '\n'

/-- Quote a field when needed, doubling embedded quote characters. -/
def csvQuoteField (f : List Char) : List Char :=
  if csvNeedsQuote f then
    '"' :: (f.map fun c => if c = '"' then '"' :: '"' :: [] else c :: []).flatten ++ '"' :: []
  else f

/-- `csv.writer(output, delimiter=';', quoting=csv.QUOTE_MINIMAL)` writing
one row, with the writer's default `\r\n` line terminator. -/
def csvWriteRow (fields : List (List Char)) : List Char :=
  (List.intersperse (';' :: []) (fields.map csvQuoteField)).flatten ++ '\r' :: '\n' :: []

/-- The Spanish header row of the export (database.py lines 242-247). -/
def csvFieldnames : List (List Char) :=
  ["ID".toList, "Fecha".toList, "Nombre".toList, "Email".toList, "Hardware_ID".toList,
   "Licencia".toList, "Importe_Bruto".toList, "Comision_Stripe".toList, "Importe_Neto".toList,
   "Moneda".toList, "Juzgado".toList, "Numero".toList, "Partido_Judicial".toList,
   "Stripe_Session".toList, "Stripe_Payment".toList, "Stripe_Customer".toList, "Pais".toList]

/-- The CSV row written for one sale (database.py lines 252-280): per-row
fee `round(gross * 0.015 + 0.25, 2)`, net `round(gross - fee, 2)`, and the
Spanish decimal-comma rendering `str(x).replace('.', ',')`. -/
def saleCsvRow (sale : Sale) : List (List Char) :=
  let fecha := match sale.created_at with
    | some d => fmtFechaCsv d
    | none => []
  let importe_bruto := sale.amount
  let comision := pyRound2 (importe_bruto * 0.015 + 0.25)
  let importe_neto := pyRound2 (importe_bruto - comision)
  [Nat.toDigits 10 sale.id, fecha, sale.nombre, sale.email, sale.hw_id, sale.license_key,
   replaceChar '.' ',' (pyFloatStr importe_bruto),
   replaceChar '.' ',' (pyFloatStr comision),
   replaceChar '.' ',' (pyFloatStr importe_neto),
   sale.currency, sale.juzgado, sale.numero_juzgado, sale.partido_judicial,
   sale.stripe_session_id, sale.stripe_payment_intent, sale.stripe_customer_id,
   sale.pais_facturacion]

/-- Embedding of `export_sales_csv` (database.py lines 223-282): empty string
when there are no sales, otherwise the header row followed by one row per
sale. -/
def export_sales_csv (sales : List Sale) : List Char :=
  if sales.isEmpty then []
  else csvWriteRow csvFieldnames ++ (sales.map fun s => csvWriteRow (saleCsvRow s)).flatten

/-- Modelled from the spec (§4.2): the `aggregateRevenue` fee formula,
`fees = gross * feeRate + count * perTransactionFee` with the configured
constants 1.5% and 0.25 EUR, applied to a list of amounts. -/
def ledgerFeeFormula (amounts : List ℚ) : ℚ :=
  amounts.sum * 0.015 + (amounts.length : ℚ) * 0.25

theorem dot_not_mem_replaceChar (l : List Char) : '.' ∉ replaceChar '.' ',' l := by
  intro h
  simp only [replaceChar, List.mem_map] at h
  obtain ⟨c, _, hc⟩ := h
  by_cases h' : c = '.'
  · rw [if_pos h'] at hc
    exact absurd hc (by decide)
  · rw [if_neg h'] at hc
    exact h' hc

theorem comma_mem_replace_pyFloatStr (q : ℚ) : ',' ∈ replaceChar '.' ',' (pyFloatStr q) := by
  have hdot : '.' ∈ pyFloatStr q := by
    simp only [pyFloatStr]
    split_ifs <;> simp
  simp only [replaceChar, List.mem_map]
  exact ⟨'.', hdot, by decide⟩

theorem fee_formula_singleton (a : ℚ) : a * 0.015 + 0.25 = ledgerFeeFormula (a :: []) := by
  simp [ledgerFeeFormula]

/-- C8 (amended): for a nonempty ledger, `export_sales_csv` is the header row
plus one semicolon-delimited row per sale; each row has 17 fields, its
numeric gross/fee/net fields use a comma (never a dot) as decimal separator,
and fee and net are recomputed per row with the `aggregateRevenue` fee
formula applied to that single sale. -/
theorem C8_export_csv_rows (sales : List Sale) (s : Sale) (hne : sales ≠ []) :
    export_sales_csv sales =
      csvWriteRow csvFieldnames ++ (sales.map fun x => csvWriteRow (saleCsvRow x)).flatten ∧
    (saleCsvRow s).length = 17 ∧
    (saleCsvRow s).getD 6 [] = replaceChar '.' ',' (pyFloatStr s.amount) ∧
    (saleCsvRow s).getD 7 [] =
      replaceChar '.' ',' (pyFloatStr (pyRound2 (ledgerFeeFormula (s.amount :: [])))) ∧
    (saleCsvRow s).getD 8 [] =
      replaceChar '.' ',' (pyFloatStr (pyRound2 (s.amount -
        pyRound2 (ledgerFeeFormula (s.amount :: []))))) ∧
    ∀ q : ℚ, '.' ∉ replaceChar '.' ',' (pyFloatStr q) ∧
      ',' ∈ replaceChar '.' ',' (pyFloatStr q) := by
  refine ⟨by simp [export_sales_csv, List.isEmpty_iff, hne], rfl, rfl, ?_, ?_,
    fun q => ⟨dot_not_mem_replaceChar _, comma_mem_replace_pyFloatStr q⟩⟩
  · show replaceChar '.' ',' (pyFloatStr (pyRound2 (s.amount * 0.015 + 0.25))) = _
    rw [fee_formula_singleton]
  · show replaceChar '.' ',' (pyFloatStr (pyRound2 (s.amount -
      pyRound2 (s.amount * 0.015 + 0.25)))) = _
    rw [fee_formula_singleton]

/-- A concrete sale used by the C8 witness. -/
def sampleSale : Sale where
  id := 1
  created_at := none
  nombre := []
  email := []
  hw_id := []
  license_key := []
  amount := 300
  currency := []
  juzgado := []
  numero_juzgado := []
  partido_judicial := []
  stripe_session_id := []
  stripe_payment_intent := []
  stripe_customer_id := []
  pais_facturacion := []

/-- Witness for C8 at a concrete one-sale ledger. -/
theorem C8_witness :
    (sampleSale :: []) ≠ [] ∧
    (export_sales_csv (sampleSale :: []) =
      csvWriteRow csvFieldnames ++
        ((sampleSale :: []).map fun x => csvWriteRow (saleCsvRow x)).flatten ∧
    (saleCsvRow sampleSale).length = 17 ∧
    (saleCsvRow sampleSale).getD 6 [] = replaceChar '.' ',' (pyFloatStr sampleSale.amount) ∧
    (saleCsvRow sampleSale).getD 7 [] =
      replaceChar '.' ',' (pyFloatStr (pyRound2 (ledgerFeeFormula (sampleSale.amount :: [])))) ∧
    (saleCsvRow sampleSale).getD 8 [] =
      replaceChar '.' ',' (pyFloatStr (pyRound2 (sampleSale.amount -
        pyRound2 (ledgerFeeFormula (sampleSale.amount :: []))))) ∧
    ∀ q : ℚ, '.' ∉ replaceChar '.' ',' (pyFloatStr q) ∧
      ',' ∈ replaceChar '.' ',' (pyFloatStr q)) :=
  ⟨List.cons_ne_nil _ _, C8_export_csv_rows (sampleSale :: []) sampleSale (List.cons_ne_nil _ _)⟩

/-- C8 counterexample: with zero recorded sales the export is the empty
string — there is no header row, contradicting the unconditional reading of
"one row per sale plus a header row". -/
theorem C8_counterexample :
    export_sales_csv [] = [] ∧ export_sales_csv [] ≠ csvWriteRow csvFieldnames :=
  ⟨rfl, by decide⟩

/-! ## invoice_generator.py: reference numbers and filenames -/

/-- Python `"{:04d}".format`: zero-pad to at least four digits. -/
def pyFormat04d (n : Nat) : List Char :=
  if n < 10000 then
    decDigit (n / 1000) :: decDigit (n / 100) :: decDigit (n / 10) :: decDigit n :: []
  else Nat.toDigits 10 n

/-- Embedding of `generate_invoice_number` (invoice_generator.py lines
62-76): `{year}-{monthday}-{sale_id:04d}` when `sale_id` is truthy, else the
`{year}-{monthday}-{HHMMSS}` timestamp fallback; Python truthiness makes
both `None` and `0` take the fallback branch. -/
def generate_invoice_number (now : PyDateTime) (sale_id : Option Nat) : List Char :=
  let year := pad4 now.year
  let month_day := pad2 now.month ++ pad2 now.day
  if sale_id.getD 0 ≠ 0 then
    year ++ '-' :: (month_day ++ '-' :: pyFormat04d (sale_id.getD 0))
  else
    year ++ '-' :: (month_day ++ '-' :: (pad2 now.hour ++ pad2 now.minute ++ pad2 now.second))

/-- Embedding of `generate_invoice_filename` (invoice_generator.py lines
281-285): `Factura_{number}.pdf` with `/` and `\` replaced by `-`. -/
def generate_invoice_filename (numero_factura : List Char) : List Char :=
  "Factura_".toList ++
    ((numero_factura.map fun c => if c = '/' then '-' else c).map
      fun c => if c = '\\' then '-' else c) ++ ".pdf".toList

/-- The spec's `{year}-{monthDay}-{HHMMSS}` fallback reference-number form. -/
def invoiceNumberTimestampForm (d : PyDateTime) : List Char :=
  pad4 d.year ++ '-' :: ((pad2 d.month ++ pad2 d.day) ++ '-' ::
    (pad2 d.hour ++ pad2 d.minute ++ pad2 d.second))

/-- The spec's `{year}-{monthDay}-{4-digit sale id}` reference-number form. -/
def invoiceNumberIdForm (d : PyDateTime) (sale_id : Nat) : List Char :=
  pad4 d.year ++ '-' :: ((pad2 d.month ++ pad2 d.day) ++ '-' :: pyFormat04d sale_id)

theorem generate_invoice_number_none (d : PyDateTime) :
    generate_invoice_number d none = invoiceNumberTimestampForm d := rfl

theorem generate_invoice_number_zero (d : PyDateTime) :
    generate_invoice_number d (some 0) = invoiceNumberTimestampForm d := rfl

theorem generate_invoice_number_pos (d : PyDateTime) (i : Nat) (h : i ≠ 0) :
    generate_invoice_number d (some i) = invoiceNumberIdForm d i := by
  simp [generate_invoice_number, invoiceNumberIdForm, h]

theorem invoiceNumberTimestampForm_length (d : PyDateTime) :
    (invoiceNumberTimestampForm d).length = 16 := by
  simp [invoiceNumberTimestampForm, pad4, pad2]

theorem invoiceNumberIdForm_length (d : PyDateTime) (i : Nat) (h : i < 10000) :
    (invoiceNumberIdForm d i).length = 14 := by
  simp [invoiceNumberIdForm, pyFormat04d, pad4, pad2, h]

theorem timestampForm_ne_idForm (d d' : PyDateTime) (i : Nat) (h : i < 10000) :
    invoiceNumberTimestampForm d ≠ invoiceNumberIdForm d' i := by
  intro he
  have hlen := congrArg List.length he
  rw [invoiceNumberTimestampForm_length, invoiceNumberIdForm_length d' i h] at hlen
  exact absurd hlen (by decide)

/-! ## email_sender.py -/

/-- The Brevo transactional-email request, as far as the dispatch contract
observes it: recipient facts, subject, the license key delivered, and the
optional attachment.  The HTML body is presentation and not modelled. -/
structure EmailRequest where
  to_email : List Char
  nombre : List Char
  hw_id : List Char
  license_key : List Char
  subject : List Char
  attachment : Option (List Char × InvoiceDoc)

/-- Outcome of `send_license_email`: the boolean reported to the caller and
the request actually posted (`none` when the API key is missing and nothing
is sent). -/
structure SendOutcome where
  ok : Bool
  request : Option (EmailRequest)

/-- Embedding of `send_license_email` (email_sender.py lines 19-271).
`brevoKey` is the `BREVO_API_KEY` configuration; `transportOk` models the
HTTP call outcome — success returns `True`, and every transport or provider
error is caught and converted to `False`.  The attachment is included, and
the subject switched, exactly when both the PDF bytes and the filename are
present (line 226). -/
def send_license_email (brevoKey : List Char) (transportOk : Bool)
    (to_email nombre hw_id license_key : List Char)
    (invoice_pdf : Option InvoiceDoc) (invoice_filename : Option (List Char))
    (_invoice_number : Option (List Char)) : SendOutcome :=
  if brevoKey = [] then { ok := false, request := none }
  else
    let attachment := match invoice_pdf, invoice_filename with
      | some doc, some fn => some (fn, doc)
      | _, _ => none
    let subject := if attachment.isSome then
        "🔑 Su licencia y factura - Procesador de Delitos Leves".toList
      else "🔑 Su licencia del Procesador de Delitos Leves".toList
    { ok := transportOk
      request := some { to_email := to_email, nombre := nombre, hw_id := hw_id
                        license_key := license_key, subject := subject
                        attachment := attachment } }

/-! ## app.py: the fulfillment orchestrator -/

/-- The columns passed to the `INSERT INTO ventas` statement. -/
structure SaleInput where
  nombre : List Char
  email : List Char
  hw_id : List Char
  license_key : List Char
  amount : ℚ
  currency : List Char
  stripe_session_id : List Char
  juzgado : List Char
  numero_juzgado : List Char
  partido_judicial : List Char
  stripe_payment_intent : Option (List Char)
  stripe_customer_id : Option (List Char)
  pais_facturacion : Option (List Char)

/-- Embedding of `save_sale` (database.py lines 99-137): `False` when the
store is unreachable (`get_connection` returns `None`) or the insert raises;
`True` on commit.  Every persistence failure is caught inside, so the
function never raises — its type is a total `Bool`. -/
def save_sale (connOk insertOk : Bool) (_row : SaleInput) : Bool :=
  if !connOk then false
  else if insertOk then true
  else false

/-- A verified `checkout.session.completed` payload as the webhook handler
reads it: metadata, customer email, gross amount in cents, currency,
session id, and the optional Stripe references. -/
structure PaymentSession where
  nombre : List Char
  hw_id : List Char
  email : List Char
  amount_total : Nat
  currency : List Char
  id : List Char
  juzgado : List Char
  numero_juzgado : List Char
  partido_judicial : List Char
  payment_intent : Option (List Char)
  customer : Option (List Char)

/-- External-effect outcomes of one fulfillment run: the wall clock, store
reachability and insert success, whether PDF rendering raises, the billing
country looked up from Stripe, the Brevo key, and the email transport
outcome. -/
structure FulfillmentWorld where
  now : PyDateTime
  dbConnOk : Bool
  dbInsertOk : Bool
  invoiceOk : Bool
  pais_facturacion : Option (List Char)
  brevoKey : List Char
  emailTransportOk : Bool

/-- Observable outcome of one run of `handle_successful_payment`. -/
structure FulfillmentResult where
  license_key : List Char
  sale_saved : Bool
  invoice_pdf : Option InvoiceDoc
  invoice_filename : Option (List Char)
  numero_factura : Option (List Char)
  email : SendOutcome

/-- Embedding of `handle_successful_payment` (app.py lines 186-314), with
all external effects drawn from `w`.  The whole body is one `try/except`
that swallows every exception, so the only internal raiser — license
derivation with a missing secret — yields `none`.  The inner `try/except`
around `generate_invoice_pdf` (lines 263-280) resets the PDF, the filename
and the invoice number to `None` when rendering fails.  The email is sent
from a fire-and-forget daemon thread whose boolean outcome is only logged;
it is modelled sequentially by the `email` field. -/
def handle_successful_payment (secretKey : List Char) (iva_percent : ℚ)
    (w : FulfillmentWorld) (s : PaymentSession) : Option FulfillmentResult :=
  match generate_license_hash secretKey s.hw_id s.nombre with
  | .error _ => none
  | .ok license_key =>
    let amount : ℚ := (s.amount_total : ℚ) / 100
    let currency := pyUpper s.currency
    let saved := save_sale w.dbConnOk w.dbInsertOk
      { nombre := s.nombre, email := s.email, hw_id := s.hw_id
        license_key := license_key, amount := amount, currency := currency
        stripe_session_id := s.id, juzgado := s.juzgado
        numero_juzgado := s.numero_juzgado, partido_judicial := s.partido_judicial
        stripe_payment_intent := s.payment_intent, stripe_customer_id := s.customer
        pais_facturacion := w.pais_facturacion }
    let numero_factura := generate_invoice_number w.now none
    if w.invoiceOk then
      let invoice_pdf := generate_invoice_pdf iva_percent amount numero_factura
      let invoice_filename := generate_invoice_filename numero_factura
      some { license_key := license_key, sale_saved := saved
             invoice_pdf := some invoice_pdf
             invoice_filename := some invoice_filename
             numero_factura := some numero_factura
             email := send_license_email w.brevoKey w.emailTransportOk s.email s.nombre
               s.hw_id license_key (some invoice_pdf) (some invoice_filename)
               (some numero_factura) }
    else
      some { license_key := license_key, sale_saved := saved
             invoice_pdf := none, invoice_filename := none, numero_factura := none
             email := send_license_email w.brevoKey w.emailTransportOk s.email s.nombre
               s.hw_id license_key none none none }

theorem save_sale_eq_and (connOk insertOk : Bool) (row : SaleInput) :
    save_sale connOk insertOk row = (connOk && insertOk) := by
  cases connOk <;> cases insertOk <;> rfl

/-- Full characterization of a fulfillment run under a configured secret. -/
theorem handle_successful_payment_eq (secretKey : List Char) (iva_percent : ℚ)
    (w : FulfillmentWorld) (s : PaymentSession) (hsec : secretKey ≠ []) :
    handle_successful_payment secretKey iva_percent w s = some
      { license_key := derive_spec secretKey s.hw_id s.nombre
        sale_saved := w.dbConnOk && w.dbInsertOk
        invoice_pdf := if w.invoiceOk then
            some (generate_invoice_pdf iva_percent ((s.amount_total : ℚ) / 100)
              (generate_invoice_number w.now none))
          else none
        invoice_filename := if w.invoiceOk then
            some (generate_invoice_filename (generate_invoice_number w.now none))
          else none
        numero_factura := if w.invoiceOk then
            some (generate_invoice_number w.now none)
          else none
        email := send_license_email w.brevoKey w.emailTransportOk s.email s.nombre s.hw_id
          (derive_spec secretKey s.hw_id s.nombre)
          (if w.invoiceOk then
              some (generate_invoice_pdf iva_percent ((s.amount_total : ℚ) / 100)
                (generate_invoice_number w.now none))
            else none)
          (if w.invoiceOk then
              some (generate_invoice_filename (generate_invoice_number w.now none))
            else none)
          (if w.invoiceOk then some (generate_invoice_number w.now none) else none) } := by
  unfold handle_successful_payment
  rw [generate_license_hash_eq s.hw_id s.nombre hsec]
  cases hb : w.invoiceOk <;> simp [hb, save_sale_eq_and]

/-- C3: a Sales Ledger insert failure is non-fatal.  `save_sale` converts
every persistence failure into a boolean `false` (it equals
`connOk && insertOk` and never raises), and when it fails the orchestrator
has already derived the license key, still proceeds to invoice generation,
and still dispatches the notification email carrying that key. -/
theorem C3_ledger_failure_nonfatal (secretKey : List Char) (iva_percent : ℚ)
    (w : FulfillmentWorld) (s : PaymentSession) (row : SaleInput)
    (hsec : secretKey ≠ []) (hdb : w.dbConnOk = false ∨ w.dbInsertOk = false) :
    save_sale w.dbConnOk w.dbInsertOk row = false ∧
    (∀ (connOk insertOk : Bool) (r : SaleInput),
      save_sale connOk insertOk r = (connOk && insertOk)) ∧
    ∃ res : FulfillmentResult,
      handle_successful_payment secretKey iva_percent w s = some res ∧
      res.sale_saved = false ∧
      generate_license_hash secretKey s.hw_id s.nombre = .ok res.license_key ∧
      res.invoice_pdf = (if w.invoiceOk then
          some (generate_invoice_pdf iva_percent ((s.amount_total : ℚ) / 100)
            (generate_invoice_number w.now none))
        else none) ∧
      res.email = send_license_email w.brevoKey w.emailTransportOk s.email s.nombre s.hw_id
        res.license_key res.invoice_pdf res.invoice_filename res.numero_factura := by
  have hfalse : (w.dbConnOk && w.dbInsertOk) = false := by
    rcases hdb with h | h <;> simp [h]
  refine ⟨by rw [save_sale_eq_and, hfalse], fun c i r => save_sale_eq_and c i r, ?_⟩
  exact ⟨_, handle_successful_payment_eq secretKey iva_percent w s hsec, hfalse,
    generate_license_hash_eq s.hw_id s.nombre hsec, rfl, rfl⟩

/-- C4: an Invoice Synthesizer failure is non-fatal and degrading: the
orchestrator sets document, filename and invoice number to `None`, still
invokes the dispatcher with the license key and no attachment, and the
dispatcher reports its own success or failure independently as a boolean. -/
theorem C4_invoice_failure_degrades (secretKey : List Char) (iva_percent : ℚ)
    (w : FulfillmentWorld) (s : PaymentSession)
    (hsec : secretKey ≠ []) (hinv : w.invoiceOk = false) :
    ∃ res : FulfillmentResult,
      handle_successful_payment secretKey iva_percent w s = some res ∧
      res.invoice_pdf = none ∧ res.invoice_filename = none ∧ res.numero_factura = none ∧
      res.email = send_license_email w.brevoKey w.emailTransportOk s.email s.nombre s.hw_id
        res.license_key none none none ∧
      (w.brevoKey ≠ [] → ∃ req : EmailRequest, res.email.request = some req ∧
        req.attachment = none ∧ req.license_key = res.license_key) ∧
      res.email.ok = (if w.brevoKey = [] then false else w.emailTransportOk) := by
  refine ⟨_, handle_successful_payment_eq secretKey iva_percent w s hsec,
    by simp [hinv], by simp [hinv], by simp [hinv], by simp [hinv], ?_, ?_⟩
  · intro hbk
    refine ⟨{ to_email := s.email, nombre := s.nombre, hw_id := s.hw_id
              license_key := derive_spec secretKey s.hw_id s.nombre
              subject := "🔑 Su licencia del Procesador de Delitos Leves".toList
              attachment := none }, ?_, rfl, rfl⟩
    simp [hinv, send_license_email, hbk]
  · by_cases hbk : w.brevoKey = [] <;> simp [hinv, send_license_email, hbk]

/-- C10: the orchestrator calls `generate_invoice_number` with no sale id,
any falsy sale id (absent or 0) takes the timestamp fallback, so every
invoice number a fulfillment run produces has the
`{year}-{monthDay}-{HHMMSS}` form and never the 4-digit-sale-id form. -/
theorem C10_invoice_numbers_use_timestamp_fallback (secretKey : List Char) (iva_percent : ℚ)
    (w : FulfillmentWorld) (s : PaymentSession) (d : PyDateTime) (sid : Nat)
    (hsec : secretKey ≠ []) (hpos : 0 < sid) (hlt : sid < 10000) :
    ∃ res : FulfillmentResult,
      handle_successful_payment secretKey iva_percent w s = some res ∧
      (res.numero_factura = none ∨
        res.numero_factura = some (invoiceNumberTimestampForm w.now)) ∧
      generate_invoice_number w.now none = invoiceNumberTimestampForm w.now ∧
      generate_invoice_number w.now (some 0) = invoiceNumberTimestampForm w.now ∧
      generate_invoice_number d (some sid) = invoiceNumberIdForm d sid ∧
      invoiceNumberTimestampForm w.now ≠ invoiceNumberIdForm d sid := by
  refine ⟨_, handle_successful_payment_eq secretKey iva_percent w s hsec, ?_,
    generate_invoice_number_none w.now, generate_invoice_number_zero w.now,
    generate_invoice_number_pos d sid (Nat.pos_iff_ne_zero.mp hpos),
    timestampForm_ne_idForm w.now d sid hlt⟩
  cases hb : w.invoiceOk
  · left
    simp [hb]
  · right
    simp [hb, generate_invoice_number_none]

/-- Concrete world shared by the orchestrator witnesses: the store is down,
PDF rendering raises, the email key is configured, transport succeeds. -/
def sampleWorld : FulfillmentWorld where
  now := { year := 2025, month := 10, day := 12, hour := 13, minute := 14, second := 15 }
  dbConnOk := false
  dbInsertOk := true
  invoiceOk := false
  pais_facturacion := none
  brevoKey := 'K' :: []
  emailTransportOk := true

/-- Concrete payment event shared by the orchestrator witnesses. -/
def sampleSession : PaymentSession where
  nombre := 'J' :: []
  hw_id := 'A' :: []
  email := []
  amount_total := 30000
  currency := 'e' :: 'u' :: 'r' :: []
  id := []
  juzgado := []
  numero_juzgado := []
  partido_judicial := []
  payment_intent := none
  customer := none

/-- Concrete row input for the C3 witness. -/
def sampleSaleInput : SaleInput where
  nombre := []
  email := []
  hw_id := []
  license_key := []
  amount := 0
  currency := []
  stripe_session_id := []
  juzgado := []
  numero_juzgado := []
  partido_judicial := []
  stripe_payment_intent := none
  stripe_customer_id := none
  pais_facturacion := none

/-- Witness for C3 at concrete inputs. -/
theorem C3_witness :
    (('S' :: []) : List Char) ≠ [] ∧
    (sampleWorld.dbConnOk = false ∨ sampleWorld.dbInsertOk = false) ∧
    (save_sale sampleWorld.dbConnOk sampleWorld.dbInsertOk sampleSaleInput = false ∧
    (∀ (connOk insertOk : Bool) (r : SaleInput),
      save_sale connOk insertOk r = (connOk && insertOk)) ∧
    ∃ res : FulfillmentResult,
      handle_successful_payment ('S' :: []) 21 sampleWorld sampleSession = some res ∧
      res.sale_saved = false ∧
      generate_license_hash ('S' :: []) sampleSession.hw_id sampleSession.nombre =
        .ok res.license_key ∧
      res.invoice_pdf = (if sampleWorld.invoiceOk then
          some (generate_invoice_pdf 21 ((sampleSession.amount_total : ℚ) / 100)
            (generate_invoice_number sampleWorld.now none))
        else none) ∧
      res.email = send_license_email sampleWorld.brevoKey sampleWorld.emailTransportOk
        sampleSession.email sampleSession.nombre sampleSession.hw_id
        res.license_key res.invoice_pdf res.invoice_filename res.numero_factura) :=
  ⟨by decide, Or.inl rfl,
   C3_ledger_failure_nonfatal ('S' :: []) 21 sampleWorld sampleSession sampleSaleInput
     (by decide) (Or.inl rfl)⟩

/-- Witness for C4 at concrete inputs. -/
theorem C4_witness :
    (('S' :: []) : List Char) ≠ [] ∧
    sampleWorld.invoiceOk = false ∧
    (∃ res : FulfillmentResult,
      handle_successful_payment ('S' :: []) 21 sampleWorld sampleSession = some res ∧
      res.invoice_pdf = none ∧ res.invoice_filename = none ∧ res.numero_factura = none ∧
      res.email = send_license_email sampleWorld.brevoKey sampleWorld.emailTransportOk
        sampleSession.email sampleSession.nombre sampleSession.hw_id
        res.license_key none none none ∧
      (sampleWorld.brevoKey ≠ [] → ∃ req : EmailRequest, res.email.request = some req ∧
        req.attachment = none ∧ req.license_key = res.license_key) ∧
      res.email.ok = (if sampleWorld.brevoKey = [] then false
        else sampleWorld.emailTransportOk)) :=
  ⟨by decide, rfl,
   C4_invoice_failure_degrades ('S' :: []) 21 sampleWorld sampleSession (by decide) rfl⟩

/-- Witness for C10 at concrete inputs. -/
theorem C10_witness :
    (('S' :: []) : List Char) ≠ [] ∧ 0 < 7 ∧ 7 < 10000 ∧
    (∃ res : FulfillmentResult,
      handle_successful_payment ('S' :: []) 21 sampleWorld sampleSession = some res ∧
      (res.numero_factura = none ∨
        res.numero_factura = some (invoiceNumberTimestampForm sampleWorld.now)) ∧
      generate_invoice_number sampleWorld.now none =
        invoiceNumberTimestampForm sampleWorld.now ∧
      generate_invoice_number sampleWorld.now (some 0) =
        invoiceNumberTimestampForm sampleWorld.now ∧
      generate_invoice_number sampleWorld.now (some 7) =
        invoiceNumberIdForm sampleWorld.now 7 ∧
      invoiceNumberTimestampForm sampleWorld.now ≠
        invoiceNumberIdForm sampleWorld.now 7) :=
  ⟨by decide, by decide, by decide,
   C10_invoice_numbers_use_timestamp_fallback ('S' :: []) 21 sampleWorld sampleSession
     sampleWorld.now 7 (by decide) (by decide) (by decide)⟩
